import Mathlib

/-!
# Verification of the AP2 server-side request pipeline

Shallow embedding of the server-side request pipeline of the `ap2` package:
`BaseServerExecutor.execute` and its helpers (`_parse_request`,
`_handle_extensions`, the mandate gate, `_handle_request`), the
`FunctionCallResolver`, `validate_payment_mandate_signature`,
`message_utils.find_data_part`, and the watch-log helpers.

Python exceptions are embedded as `Except`: a `.error` result of `execute`
is an exception escaping `execute` to the hosting transport layer, while a
`.ok` result carries the ordered list of events published to the event
queue (tool invocations and terminal task updates).  External collaborators
(the classification backend, the filesystem behaviour of the watch-log file
handler, the fresh UUIDs) enter as explicit parameters.
-/

namespace AP2

/-- JSON-like values: the `Any` payload values carried inside A2A data parts. -/
inductive JValue where
  | null : JValue
  | str (s : String) : JValue
  | num (n : Int) : JValue
  | bool (b : Bool) : JValue
  | arr (xs : List JValue) : JValue
  | obj (fields : List (String × JValue)) : JValue

/-- The content of a `DataPart`: a `dict[str, Any]`, embedded as an
association list whose lookup returns the first binding of a key. -/
def DataPart : Type := List (String × JValue)

/-- A content fragment of an A2A message: a text part, a data part, or a
file part (the latter is ignored by the pipeline). -/
inductive A2APart where
  | text (s : String) : A2APart
  | data (d : DataPart) : A2APart
  | file (name : String) : A2APart

/-- An inbound A2A message: an identifier and an ordered list of parts
(other message fields are not read by the pipeline under study). -/
structure A2AMessage where
  message_id : String
  parts : List A2APart

/-- A task object, as carried by `RequestContext.current_task`; the pipeline
passes it through to tool handlers without inspecting it. -/
structure Task where
  id : String
deriving DecidableEq

/-- The server call context: holds the mutable set of activated extension
URIs (`context.call_context.activated_extensions`).  Python sets are
embedded as duplicate-free lists; set equality is membership equality. -/
structure ServerCallContext where
  activated_extensions : List String
deriving DecidableEq

/-- The A2A `RequestContext` as read by the pipeline: the inbound message,
the caller-requested extension URIs, the call context with its activated
extensions, the optional correlation identifiers and the prior task. -/
structure RequestContext where
  message : Option A2AMessage
  requested_extensions : List String
  call_context : ServerCallContext
  task_id : Option String
  context_id : Option String
  current_task : Option Task

/-- Embeds `context.add_activated_extension(uri)`: records one URI as activated
(adding to a set: no effect when the URI is already activated). -/
def RequestContext.add_activated_extension
    (ctx : RequestContext) (uri : String) : RequestContext :=
  { ctx with
    call_context :=
      { ctx.call_context with
        activated_extensions := ctx.call_context.activated_extensions.insert uri } }

/-- The task-update handle handed to the dispatched tool
(`TaskUpdater(event_queue, task_id, context_id)`). -/
structure TaskUpdater where
  task_id : String
  context_id : String
deriving DecidableEq

/-- Terminal or intermediate task updates a tool handler may publish through
its `TaskUpdater` handle. -/
inductive TaskEvent where
  | completed (message : Option String) : TaskEvent
  | failed (message : String) : TaskEvent
  | artifact (name : String) : TaskEvent
  | working (message : String) : TaskEvent
deriving DecidableEq

/-- Events observable on the event queue during one request: a tool handler
being invoked (with its exact arguments), or a task update. -/
inductive Event where
  | invoked (toolName : String) (dataParts : List DataPart)
      (updater : TaskUpdater) (currentTask : Option Task) : Event
  | task (e : TaskEvent) : Event

/-- Errors that can escape `execute` to the transport layer, tagged by the
pipeline step that raised them; each carries the Python exception message. -/
inductive PipelineError where
  | loggingError (message : String) : PipelineError
  | schemaError (message : String) : PipelineError
  | extensionNotActivated (message : String) : PipelineError
  | authorizationError (message : String) : PipelineError
deriving DecidableEq

/-- A registered tool: `__name__`, `__doc__`, and the handler, which receives
the data parts, the task updater and the prior task, and either returns the
task updates it published or raises (`Except.error` with the exception text). -/
structure Tool where
  name : String
  doc : String
  handler : List DataPart → TaskUpdater → Option Task → Except String (List TaskEvent)

/-- Embeds `message_utils.find_data_part`: the value for the first occurrence of the
key in the data parts, or `none`. -/
def find_data_part (data_key : String) :
    List DataPart → Option JValue
  | [] => none
  | data_part :: rest =>
    match List.lookup data_key data_part with
    | some v => some v
    | none => find_data_part data_key rest

/-- Modelled from the spec: the designated payment-extension URI
(`EXTENSION_URI` from `ap2.common.a2a_extension_utils`, a module not under
`src/`); per the spec it is the URI whose activation the mandate gate
requires.  Its concrete value is irrelevant to the pipeline's control flow. -/
def EXTENSION_URI : String := "https://github.com/google-agentic-commerce/ap2/v1"

/-- Modelled from the spec: the reserved payment-mandate key
(`PAYMENT_MANDATE_DATA_KEY` from `ap2.types.mandate`, a module not under
`src/`); the spec's end-to-end scenario A names it as the key of the
payment-mandate payload inside a structured fragment. -/
def PAYMENT_MANDATE_DATA_KEY : String := "payment_request.PaymentMandate"

/-- Modelled from the spec: the `PaymentMandate` schema of
`ap2.types.mandate` (not under `src/`).  Per the spec it is a structured
mapping carrying a `user_authorization` claim that may be null or absent. -/
structure PaymentMandate where
  fields : List (String × JValue)
  user_authorization : Option String

/-- Modelled from the spec: `PaymentMandate.model_validate` (pydantic
deserialization of `ap2.types.mandate.PaymentMandate`, not under `src/`).
Per the spec, deserialization "must fail with a schema error if required
fields are missing" — the payload must be a mapping and its
`user_authorization` claim, when present, must be null or a string. -/
def PaymentMandate.model_validate (v : JValue) :
    Except PipelineError PaymentMandate :=
  match v with
  | .obj fields =>
    match List.lookup "user_authorization" fields with
    | none => .ok { fields := fields, user_authorization := none }
    | some .null => .ok { fields := fields, user_authorization := none }
    | some (.str s) => .ok { fields := fields, user_authorization := some s }
    | some _ =>
      .error (.schemaError "user_authorization: Input should be a valid string")
  | _ => .error (.schemaError "PaymentMandate: Input should be a valid dictionary")

/-- Embeds `validation.validate_payment_mandate_signature`: raises `ValueError` when
the `user_authorization` field is `None`; otherwise only logs success. -/
def validate_payment_mandate_signature (payment_mandate : PaymentMandate) :
    Except PipelineError Unit :=
  match payment_mandate.user_authorization with
  | none => .error (.authorizationError "User authorization not found in PaymentMandate.")
  | some _ => .ok ()

/-- The first function-call content part of a classification response
(`google.genai` response shape, as read by `determine_tool_to_use`). -/
structure FunctionCall where
  name : String
deriving DecidableEq

/-- A content part of a classification response. -/
structure ResponsePart where
  function_call : Option FunctionCall
deriving DecidableEq

/-- The content of a response candidate. -/
structure ResponseContent where
  parts : List ResponsePart
deriving DecidableEq

/-- A candidate of a classification response. -/
structure ResponseCandidate where
  content : Option ResponseContent
deriving DecidableEq

/-- A classification-backend response (`generate_content` result). -/
structure GenResponse where
  candidates : List ResponseCandidate
deriving DecidableEq

/-- The classification backend: maps a prompt to a response, or raises
(`Except.error`).  Embeds `self._client.models.generate_content(...)`. -/
def GenAIClient : Type := String → Except String GenResponse

/-- The response postprocessing of `determine_tool_to_use`: when the response
has a candidate with content parts, the name of the first function call among
those parts; in every other case the sentinel `"Unknown"`. -/
def response_tool_name (response : GenResponse) : String :=
  match response.candidates with
  | [] => "Unknown"
  | c :: _ =>
    match c.content with
    | none => "Unknown"
    | some content =>
      match content.parts.findSome? (fun part => part.function_call) with
      | some fc => fc.name
      | none => "Unknown"

/-- Embeds `FunctionCallResolver.determine_tool_to_use`: queries the backend
(`generate_content`, which may raise), then postprocesses the response. -/
def determine_tool_to_use (client : GenAIClient) (prompt : String) :
    Except String String :=
  (client prompt).map response_tool_name

/-- The server state fixed at construction: the declared supported extension
URIs, the registered tools, and the system prompt steering classification. -/
structure BaseServerExecutor where
  supported_extension_uris : List String
  tools : List Tool
  system_prompt : String

/-- An entry of the `supported_extensions` constructor argument; only its
`uri` attribute is read. -/
structure ExtensionDecl where
  uri : String

/-- Embeds `BaseServerExecutor.__init__`: collects the declared extension URIs
(empty when `supported_extensions` is `None`) and stores the tools. -/
def BaseServerExecutor.init (supported_extensions : Option (List ExtensionDecl))
    (tools : List Tool) (system_prompt : String) : BaseServerExecutor :=
  { supported_extension_uris :=
      match supported_extensions with
      | some exts => (exts.map (fun ext => ext.uri)).dedup
      | none => []
    tools := tools
    system_prompt := system_prompt }

/-- Modelled external helpers `a2a.utils.message.get_text_parts`: the text of
every text part, in original order. -/
def get_text_parts (parts : List A2APart) : List String :=
  parts.filterMap fun p =>
    match p with
    | .text s => some s
    | _ => none

/-- Modelled external helper `a2a.utils.message.get_data_parts`: the content
of every data part, in original order. -/
def get_data_parts (parts : List A2APart) : List DataPart :=
  parts.filterMap fun p =>
    match p with
    | .data d => some d
    | _ => none

/-- Embeds `BaseServerExecutor._parse_request`: projects the message (empty part
list when the message is absent) to its text parts and data parts. -/
def parse_request (ctx : RequestContext) : List String × List DataPart :=
  let parts := match ctx.message with
    | some m => m.parts
    | none => []
  (get_text_parts parts, get_data_parts parts)

/-- Embeds `BaseServerExecutor._handle_extensions`: intersects the requested URIs
with the supported URIs and records each URI of the intersection as
activated on the request context. -/
def handle_extensions (srv : BaseServerExecutor) (ctx : RequestContext) :
    RequestContext :=
  let requested_uris := ctx.requested_extensions
  let activated_uris :=
    requested_uris.filter (fun uri => uri ∈ srv.supported_extension_uris)
  activated_uris.foldl (fun c uri => c.add_activated_extension uri) ctx

/-- State of the watch-log module for one request: whether the module logger
already has handlers, and whether creating the `.logs/watch.log` file handler
succeeds (`logging.FileHandler` raises when the directory is missing). -/
structure WatchLogEnv where
  has_handlers : Bool
  create_file_handler : Except String Unit

/-- Embeds `watch_log.log_a2a_message_parts`: its `_load_logger()` call creates the
watch-log file handler on first use, which can raise; the subsequent
log-record emissions cannot (the logging framework swallows emit errors). -/
def log_a2a_message_parts (env : WatchLogEnv) : Except String Unit :=
  if env.has_handlers then .ok () else env.create_file_handler

/-- Python's `str.strip()`: drops leading and trailing whitespace.  Embedded
structurally on the character list so that it evaluates by kernel reduction. -/
def strip (s : String) : String :=
  ⟨((s.data.dropWhile Char.isWhitespace).reverse.dropWhile Char.isWhitespace).reverse⟩

/-- Embeds `BaseServerExecutor._handle_request`: resolves the prompt to a tool name,
requires exactly one registered tool of that name, invokes its handler, and
converts any raised error into a failed-task update.  Returns the events
published to the event queue, in order.  The source's
`len(matching_tools) != 1` check followed by `matching_tools[0]` is embedded
as the singleton-list pattern; the `ValueError` it raises is caught by the
enclosing `except`, hence appears directly as the failed-task message. -/
def handle_request (srv : BaseServerExecutor) (client : GenAIClient)
    (text_parts : List String) (data_parts : List DataPart)
    (updater : TaskUpdater) (current_task : Option Task) : List Event :=
  match determine_tool_to_use client (strip (text_parts.headD "")) with
  | .error e => [.task (.failed ("An error occurred: " ++ e))]
  | .ok tool_name =>
    match srv.tools.filter (fun tool => tool.name == tool_name) with
    | [callable_tool] =>
      match callable_tool.handler data_parts updater current_task with
      | .ok evs =>
        .invoked callable_tool.name data_parts updater current_task :: evs.map .task
      | .error e =>
        [.invoked callable_tool.name data_parts updater current_task,
         .task (.failed ("An error occurred: " ++ e))]
    | matching_tools =>
      [.task (.failed ("An error occurred: Expected 1 tool matching " ++ tool_name
        ++ ", got " ++ toString matching_tools.length))]

/-- The mandate gate of `execute` (its lines between extension handling and
updater creation): requires the payment extension to be activated, then
validates the first payment-mandate payload when one is present. -/
def mandate_gate (activated : List String) (data_parts : List DataPart) :
    Except PipelineError Unit :=
  if EXTENSION_URI ∈ activated then
    match find_data_part PAYMENT_MANDATE_DATA_KEY data_parts with
    | some payment_mandate =>
      (PaymentMandate.model_validate payment_mandate).bind
        validate_payment_mandate_signature
    | none => .ok ()
  else
    .error (.extensionNotActivated
      ("Payment extension not activated. " ++ toString activated))

/-- Embeds `BaseServerExecutor.execute`: the per-request pipeline.  Logs, parses,
negotiates extensions, runs the mandate gate, builds the task updater (fresh
UUIDs supplied as parameters) and dispatches.  A `.error` result is an
exception escaping `execute` to the transport layer; a `.ok` result lists
the events published to the event queue.  The initial
`watch_log.log_a2a_request_extensions` call only emits log records (it does
not call `_load_logger`), so it cannot raise and is elided here; the
`log_a2a_message_parts` call can raise while creating the file handler. -/
def execute (srv : BaseServerExecutor) (env : WatchLogEnv) (client : GenAIClient)
    (ctx : RequestContext) (fresh_task_id fresh_context_id : String) :
    Except PipelineError (List Event) :=
  let parsed := parse_request ctx
  let text_parts := parsed.1
  let data_parts := parsed.2
  match log_a2a_message_parts env with
  | .error e => .error (.loggingError e)
  | .ok _ =>
    let ctx := handle_extensions srv ctx
    match mandate_gate ctx.call_context.activated_extensions data_parts with
    | .error e => .error e
    | .ok _ =>
      let updater : TaskUpdater :=
        { task_id := ctx.task_id.getD fresh_task_id
          context_id := ctx.context_id.getD fresh_context_id }
      .ok (handle_request srv client text_parts data_parts updater ctx.current_task)

/-- The tool invocations recorded among a request's events. -/
def invocations (evs : List Event) :
    List (String × List DataPart × TaskUpdater × Option Task) :=
  evs.filterMap fun e =>
    match e with
    | .invoked n d u t => some (n, d, u, t)
    | .task _ => none

/-- The tool invocations of a whole pipeline run: an escaping exception
publishes no events, hence records no invocations. -/
def result_invocations (r : Except PipelineError (List Event)) :
    List (String × List DataPart × TaskUpdater × Option Task) :=
  match r with
  | .error _ => []
  | .ok evs => invocations evs

/-! ## Helper lemmas -/

theorem mem_foldl_add_activated (l : List String) (ctx : RequestContext) (u : String) :
    u ∈ (l.foldl (fun c uri => c.add_activated_extension uri) ctx).call_context.activated_extensions ↔
      u ∈ ctx.call_context.activated_extensions ∨ u ∈ l := by
  induction l generalizing ctx with
  | nil => simp
  | cons a l ih =>
    rw [List.foldl_cons, ih]
    simp only [RequestContext.add_activated_extension, List.mem_insert_iff, List.mem_cons]
    tauto

theorem foldl_add_activated_proj (l : List String) (ctx : RequestContext) :
    (l.foldl (fun c uri => c.add_activated_extension uri) ctx).message = ctx.message ∧
    (l.foldl (fun c uri => c.add_activated_extension uri) ctx).requested_extensions
      = ctx.requested_extensions ∧
    (l.foldl (fun c uri => c.add_activated_extension uri) ctx).task_id = ctx.task_id ∧
    (l.foldl (fun c uri => c.add_activated_extension uri) ctx).context_id = ctx.context_id ∧
    (l.foldl (fun c uri => c.add_activated_extension uri) ctx).current_task
      = ctx.current_task := by
  induction l generalizing ctx with
  | nil => simp
  | cons a l ih =>
    rw [List.foldl_cons]
    exact ih _

theorem mem_handle_extensions (srv : BaseServerExecutor) (ctx : RequestContext)
    (u : String) :
    u ∈ (handle_extensions srv ctx).call_context.activated_extensions ↔
      u ∈ ctx.call_context.activated_extensions ∨
        (u ∈ ctx.requested_extensions ∧ u ∈ srv.supported_extension_uris) := by
  unfold handle_extensions
  rw [mem_foldl_add_activated]
  simp [List.mem_filter]

theorem invocations_map_task (evs : List TaskEvent) :
    invocations (evs.map Event.task) = [] := by
  induction evs with
  | nil => rfl
  | cons e evs ih =>
    simp only [invocations, List.map_cons, List.filterMap_cons] at ih ⊢
    exact ih

theorem find_data_part_append_first (key : String) (pre : List DataPart)
    (dp : DataPart) (post : List DataPart) (v : JValue)
    (hpre : ∀ p ∈ pre, List.lookup key p = none)
    (hdp : List.lookup key dp = some v) :
    find_data_part key (pre ++ dp :: post) = some v := by
  induction pre with
  | nil => simp [find_data_part, hdp]
  | cons p pre ih =>
    have hp : List.lookup key p = none := hpre p (List.mem_cons_self _ _)
    simp only [List.cons_append, find_data_part, hp]
    exact ih (fun q hq => hpre q (List.mem_cons_of_mem _ hq))

/-! ## Concrete fixtures for witnesses and counterexamples -/

def ship_order_tool : Tool :=
  { name := "ship_order"
    doc := "Ships the requested order."
    handler := fun _ _ _ => .ok [TaskEvent.completed (some "shipped")] }

def ex_server : BaseServerExecutor :=
  { supported_extension_uris := [EXTENSION_URI]
    tools := [ship_order_tool]
    system_prompt := "You are a helpful assistant." }

def ok_watch_log : WatchLogEnv :=
  { has_handlers := true, create_file_handler := .ok () }

def broken_watch_log : WatchLogEnv :=
  { has_handlers := false
    create_file_handler :=
      .error "No such file or directory: .logs/watch.log" }

def ship_order_response : GenResponse :=
  { candidates :=
      [{ content := some { parts := [{ function_call := some { name := "ship_order" } }] } }] }

def ex_client : GenAIClient := fun _ => .ok ship_order_response

def signed_mandate_part : DataPart :=
  [(PAYMENT_MANDATE_DATA_KEY, .obj [("user_authorization", .str "sig123")])]

def null_mandate_part : DataPart :=
  [(PAYMENT_MANDATE_DATA_KEY, .obj [("user_authorization", .null)])]

def ex_ctx (d : DataPart) : RequestContext :=
  { message := some { message_id := "m1", parts := [.text "ship my order", .data d] }
    requested_extensions := [EXTENSION_URI]
    call_context := { activated_extensions := [] }
    task_id := some "task-1"
    context_id := some "ctx-1"
    current_task := none }

def no_ext_ctx : RequestContext :=
  { ex_ctx signed_mandate_part with requested_extensions := [] }

def empty_msg_ctx : RequestContext :=
  { ex_ctx signed_mandate_part with message := none }

def fail_order_tool : Tool :=
  { name := "fail_order"
    doc := "Always raises."
    handler := fun _ _ _ => .error "boom" }

/-- A server registering both the completing and the raising example tool. -/
def ex2_server : BaseServerExecutor :=
  { supported_extension_uris := [EXTENSION_URI]
    tools := [ship_order_tool, fail_order_tool]
    system_prompt := "You are a helpful assistant." }

def fail_order_response : GenResponse :=
  { candidates :=
      [{ content := some { parts := [{ function_call := some { name := "fail_order" } }] } }] }

/-- A backend whose responses carry no candidates, so resolution yields the
sentinel "Unknown". -/
def unknown_client : GenAIClient := fun _ => .ok { candidates := [] }

/-- A watch-log environment without handlers whose file-handler creation
succeeds. -/
def fresh_watch_log : WatchLogEnv :=
  { has_handlers := false, create_file_handler := .ok () }

/-! ## Claim theorems -/

/-- C4:  For all caller-requested extension URI sets `R` and server-declared
supported sets `S`, negotiation on a fresh request context (no extension
activated yet) leaves the activated extension set equal to `R ∩ S` — as sets:
a URI is activated iff it is requested and supported, so no URI outside `S`
is ever activated — and every URI activated before negotiation stays
activated (activation is never undone). -/
theorem activated_extensions_eq_requested_inter_supported
    (srv : BaseServerExecutor) (ctx : RequestContext) (u : String)
    (h : ctx.call_context.activated_extensions = []) :
    (u ∈ (handle_extensions srv ctx).call_context.activated_extensions ↔
      u ∈ ctx.requested_extensions ∧ u ∈ srv.supported_extension_uris) ∧
    (u ∈ ctx.call_context.activated_extensions →
      u ∈ (handle_extensions srv ctx).call_context.activated_extensions) := by
  constructor
  · rw [mem_handle_extensions, h]
    simp
  · intro hu
    rw [mem_handle_extensions]
    exact Or.inl hu

/-- Witness for C4: on the example fresh context, the payment extension URI is
activated exactly because it is both requested and supported. -/
theorem activated_extensions_eq_requested_inter_supported_witness :
    (EXTENSION_URI ∈
        (handle_extensions ex_server (ex_ctx signed_mandate_part)).call_context.activated_extensions ↔
      EXTENSION_URI ∈ (ex_ctx signed_mandate_part).requested_extensions ∧
        EXTENSION_URI ∈ ex_server.supported_extension_uris) ∧
    (EXTENSION_URI ∈ (ex_ctx signed_mandate_part).call_context.activated_extensions →
      EXTENSION_URI ∈
        (handle_extensions ex_server (ex_ctx signed_mandate_part)).call_context.activated_extensions) :=
  activated_extensions_eq_requested_inter_supported ex_server (ex_ctx signed_mandate_part)
    EXTENSION_URI rfl

/-- C7:  Message parsing is a pure projection: an absent or empty message
yields two empty sequences; parsing the same message twice yields identical
results; the parse of a message is exactly the order-preserving projection of
its parts to text fragments and to structured fragments (the projections are
append-homomorphisms determined by their one-part values). -/
theorem parse_request_pure_projection (ctx : RequestContext)
    (p q : List A2APart) (s : String) (d : DataPart) :
    (ctx.message = none → parse_request ctx = ([], [])) ∧
    (∀ m, ctx.message = some m → m.parts = [] → parse_request ctx = ([], [])) ∧
    parse_request ctx = parse_request ctx ∧
    (∀ m, ctx.message = some m →
      parse_request ctx = (get_text_parts m.parts, get_data_parts m.parts)) ∧
    get_text_parts (p ++ q) = get_text_parts p ++ get_text_parts q ∧
    get_data_parts (p ++ q) = get_data_parts p ++ get_data_parts q ∧
    get_text_parts [A2APart.text s] = [s] ∧
    get_text_parts [A2APart.data d] = [] ∧
    get_text_parts [A2APart.file s] = [] ∧
    get_data_parts [A2APart.data d] = [d] ∧
    get_data_parts [A2APart.text s] = [] ∧
    get_data_parts [A2APart.file s] = [] := by
  refine ⟨?_, ?_, rfl, ?_, ?_, ?_, rfl, rfl, rfl, rfl, rfl, rfl⟩
  · intro h
    simp [parse_request, h, get_text_parts, get_data_parts]
  · intro m hm hp
    simp [parse_request, hm, hp, get_text_parts, get_data_parts]
  · intro m hm
    simp [parse_request, hm]
  · simp [get_text_parts]
  · simp [get_data_parts]

/-- Witness for C7: the claim's conclusions evaluated at a concrete absent
message, a concrete two-part message, and concrete part lists. -/
theorem parse_request_pure_projection_witness :
    parse_request empty_msg_ctx = ([], []) ∧
    parse_request (ex_ctx signed_mandate_part) =
      (get_text_parts [A2APart.text "ship my order", A2APart.data signed_mandate_part],
       get_data_parts [A2APart.text "ship my order", A2APart.data signed_mandate_part]) ∧
    get_text_parts ([A2APart.text "a"] ++ [A2APart.data signed_mandate_part]) =
      get_text_parts [A2APart.text "a"] ++ get_text_parts [A2APart.data signed_mandate_part] ∧
    get_data_parts ([A2APart.text "a"] ++ [A2APart.data signed_mandate_part]) =
      get_data_parts [A2APart.text "a"] ++ get_data_parts [A2APart.data signed_mandate_part] ∧
    get_text_parts [A2APart.text "a"] = ["a"] ∧
    get_data_parts [A2APart.data signed_mandate_part] = [signed_mandate_part] :=
  ⟨(parse_request_pure_projection empty_msg_ctx [] [] "" []).1 rfl,
   (parse_request_pure_projection (ex_ctx signed_mandate_part) [] [] "" []).2.2.2.1
     { message_id := "m1"
       parts := [A2APart.text "ship my order", A2APart.data signed_mandate_part] } rfl,
   (parse_request_pure_projection (ex_ctx signed_mandate_part) [A2APart.text "a"]
     [A2APart.data signed_mandate_part] "a" signed_mandate_part).2.2.2.2.1,
   (parse_request_pure_projection (ex_ctx signed_mandate_part) [A2APart.text "a"]
     [A2APart.data signed_mandate_part] "a" signed_mandate_part).2.2.2.2.2.1,
   (parse_request_pure_projection (ex_ctx signed_mandate_part) [A2APart.text "a"]
     [A2APart.data signed_mandate_part] "a" signed_mandate_part).2.2.2.2.2.2.1,
   (parse_request_pure_projection (ex_ctx signed_mandate_part) [A2APart.text "a"]
     [A2APart.data signed_mandate_part] "a" signed_mandate_part).2.2.2.2.2.2.2.2.2.1⟩

/-- C9:  Only the first text fragment, stripped of surrounding whitespace,
is passed to capability resolution as the prompt: dispatch behaves identically
on any two text-fragment lists whose first elements strip to the same prompt
(so later fragments are ignored, and no fragments behave as the empty
prompt); moreover the string handed to the resolver is exactly the stripped
first fragment, as exhibited by a backend that echoes its prompt into the
error message. -/
theorem resolution_prompt_is_first_text_part_trimmed
    (srv : BaseServerExecutor) (client : GenAIClient)
    (tp₁ tp₂ : List String) (d : List DataPart) (u : TaskUpdater) (ct : Option Task)
    (h : strip (tp₁.headD "") = strip (tp₂.headD "")) :
    handle_request srv client tp₁ d u ct = handle_request srv client tp₂ d u ct ∧
    handle_request srv (fun p => .error p) tp₁ d u ct =
      [.task (.failed ("An error occurred: " ++ strip (tp₁.headD "")))] := by
  constructor
  · unfold handle_request
    rw [h]
  · rfl

/-- Witness for C9: a two-fragment message and a one-fragment message with the
same first fragment dispatch identically. -/
theorem resolution_prompt_is_first_text_part_trimmed_witness :
    handle_request ex_server ex_client ["ship my order ", "ignored"] []
        { task_id := "t", context_id := "c" } none =
      handle_request ex_server ex_client ["  ship my order"] []
        { task_id := "t", context_id := "c" } none ∧
    handle_request ex_server (fun p => .error p) ["ship my order ", "ignored"] []
        { task_id := "t", context_id := "c" } none =
      [.task (.failed ("An error occurred: " ++ (strip (["ship my order ", "ignored"].headD ""))))] :=
  resolution_prompt_is_first_text_part_trimmed ex_server ex_client
    ["ship my order ", "ignored"] ["  ship my order"] []
    { task_id := "t", context_id := "c" } none (by decide)

/-- C10:  When several structured fragments contain the reserved
payment-mandate key, only the value from the first such fragment is found and
authorization-checked: the mandate gate's result is unchanged by arbitrary
replacement of everything after the first fragment carrying the key. -/
theorem payment_mandate_first_occurrence_only
    (act : List String) (pre : List DataPart) (dp : DataPart)
    (post post' : List DataPart) (v : JValue)
    (hpre : ∀ p ∈ pre, List.lookup PAYMENT_MANDATE_DATA_KEY p = none)
    (hdp : List.lookup PAYMENT_MANDATE_DATA_KEY dp = some v) :
    find_data_part PAYMENT_MANDATE_DATA_KEY (pre ++ dp :: post) = some v ∧
    mandate_gate act (pre ++ dp :: post) = mandate_gate act (pre ++ dp :: post') := by
  have h1 := find_data_part_append_first PAYMENT_MANDATE_DATA_KEY pre dp post v hpre hdp
  have h2 := find_data_part_append_first PAYMENT_MANDATE_DATA_KEY pre dp post' v hpre hdp
  refine ⟨h1, ?_⟩
  unfold mandate_gate
  rw [h1, h2]

/-- Witness for C10: a signed first mandate followed by a null-authorization
mandate validates the same as the signed mandate alone — the later occurrence
is never examined. -/
theorem payment_mandate_first_occurrence_only_witness :
    find_data_part PAYMENT_MANDATE_DATA_KEY
        ([] ++ signed_mandate_part :: [null_mandate_part]) =
      some (.obj [("user_authorization", .str "sig123")]) ∧
    mandate_gate [EXTENSION_URI] ([] ++ signed_mandate_part :: [null_mandate_part]) =
      mandate_gate [EXTENSION_URI] ([] ++ signed_mandate_part :: []) :=
  payment_mandate_first_occurrence_only [EXTENSION_URI] [] signed_mandate_part
    [null_mandate_part] [] (.obj [("user_authorization", .str "sig123")])
    (by intro p hp; cases hp) rfl

/-- C2:  When the payment extension is activated and the structured
payload found under the reserved payment-mandate key has a null or absent
`user_authorization` claim, the pipeline fails with the authorization error
and no capability handler is ever invoked. -/
theorem null_authorization_fails_before_dispatch
    (srv : BaseServerExecutor) (env : WatchLogEnv) (client : GenAIClient)
    (ctx : RequestContext) (f₁ f₂ : String) (fields : List (String × JValue))
    (hlog : log_a2a_message_parts env = .ok ())
    (hact : EXTENSION_URI ∈ (handle_extensions srv ctx).call_context.activated_extensions)
    (hfind : find_data_part PAYMENT_MANDATE_DATA_KEY (parse_request ctx).2 =
      some (.obj fields))
    (hauth : List.lookup "user_authorization" fields = none ∨
      List.lookup "user_authorization" fields = some .null) :
    execute srv env client ctx f₁ f₂ =
      .error (.authorizationError "User authorization not found in PaymentMandate.") ∧
    result_invocations (execute srv env client ctx f₁ f₂) = [] := by
  have hgate : mandate_gate (handle_extensions srv ctx).call_context.activated_extensions
      (parse_request ctx).2 =
      .error (.authorizationError "User authorization not found in PaymentMandate.") := by
    unfold mandate_gate
    rw [if_pos hact, hfind]
    unfold PaymentMandate.model_validate
    rcases hauth with h | h <;>
      simp [h, validate_payment_mandate_signature, Except.bind]
  have hexec : execute srv env client ctx f₁ f₂ =
      .error (.authorizationError "User authorization not found in PaymentMandate.") := by
    simp only [execute, hlog, hgate]
  exact ⟨hexec, by rw [hexec]; rfl⟩

/-- Witness for C2: the example request carrying a payment mandate with a
null `user_authorization` is rejected with the authorization error and
records no tool invocation. -/
theorem null_authorization_fails_before_dispatch_witness :
    execute ex_server ok_watch_log ex_client (ex_ctx null_mandate_part) "t" "c" =
      .error (.authorizationError "User authorization not found in PaymentMandate.") ∧
    result_invocations
        (execute ex_server ok_watch_log ex_client (ex_ctx null_mandate_part) "t" "c") = [] :=
  null_authorization_fails_before_dispatch ex_server ok_watch_log ex_client
    (ex_ctx null_mandate_part) "t" "c" [("user_authorization", .null)]
    rfl (by decide) rfl (Or.inr rfl)

/-- C3:  When the activated extension set after negotiation does not
contain the payment-extension URI, the pipeline raises the protocol error
regardless of the message contents: no handler is invoked and the outcome is
the same for every classification backend (the resolver is never reached). -/
theorem missing_payment_extension_fails_before_resolution
    (srv : BaseServerExecutor) (env : WatchLogEnv) (client : GenAIClient)
    (ctx : RequestContext) (f₁ f₂ : String)
    (hlog : log_a2a_message_parts env = .ok ())
    (hnact : EXTENSION_URI ∉ (handle_extensions srv ctx).call_context.activated_extensions) :
    execute srv env client ctx f₁ f₂ =
      .error (.extensionNotActivated ("Payment extension not activated. " ++
        toString (handle_extensions srv ctx).call_context.activated_extensions)) ∧
    result_invocations (execute srv env client ctx f₁ f₂) = [] ∧
    (∀ client' : GenAIClient,
      execute srv env client' ctx f₁ f₂ = execute srv env client ctx f₁ f₂) := by
  have hgate : mandate_gate (handle_extensions srv ctx).call_context.activated_extensions
      (parse_request ctx).2 =
      .error (.extensionNotActivated ("Payment extension not activated. " ++
        toString (handle_extensions srv ctx).call_context.activated_extensions)) := by
    unfold mandate_gate
    rw [if_neg hnact]
  have hexec : ∀ c : GenAIClient, execute srv env c ctx f₁ f₂ =
      .error (.extensionNotActivated ("Payment extension not activated. " ++
        toString (handle_extensions srv ctx).call_context.activated_extensions)) := by
    intro c
    simp only [execute, hlog, hgate]
  exact ⟨hexec client, by rw [hexec client]; rfl,
    fun c => by rw [hexec c, hexec client]⟩

/-- Witness for C3: a request that did not request the payment extension is
rejected with the protocol error before resolution. -/
theorem missing_payment_extension_fails_before_resolution_witness :
    execute ex_server ok_watch_log ex_client no_ext_ctx "t" "c" =
      .error (.extensionNotActivated ("Payment extension not activated. " ++
        toString (handle_extensions ex_server no_ext_ctx).call_context.activated_extensions)) ∧
    result_invocations (execute ex_server ok_watch_log ex_client no_ext_ctx "t" "c") = [] ∧
    (∀ client' : GenAIClient,
      execute ex_server ok_watch_log client' no_ext_ctx "t" "c" =
        execute ex_server ok_watch_log ex_client no_ext_ctx "t" "c") :=
  missing_payment_extension_fails_before_resolution ex_server ok_watch_log ex_client
    no_ext_ctx "t" "c" rfl (by decide)

/-- C5:  For a resolved tool name matching exactly one registered tool,
dispatch invokes that tool's handler exactly once, with the full
structured-payload list, the task-update handle and the prior task; for zero
or several matches it publishes the fatal cardinality error and invokes no
handler. -/
theorem dispatch_cardinality
    (srv : BaseServerExecutor) (client : GenAIClient) (tp : List String)
    (d : List DataPart) (u : TaskUpdater) (ct : Option Task) (n : String)
    (hres : determine_tool_to_use client (strip (tp.headD "")) = .ok n) :
    (∀ t, srv.tools.filter (fun tool => tool.name == n) = [t] →
      invocations (handle_request srv client tp d u ct) = [(t.name, d, u, ct)]) ∧
    ((srv.tools.filter (fun tool => tool.name == n)).length ≠ 1 →
      invocations (handle_request srv client tp d u ct) = [] ∧
      handle_request srv client tp d u ct =
        [.task (.failed ("An error occurred: Expected 1 tool matching " ++ n
          ++ ", got " ++ toString (srv.tools.filter (fun tool => tool.name == n)).length))]) := by
  constructor
  · intro t hfil
    unfold handle_request
    simp only [hres, hfil]
    cases ht : t.handler d u ct with
    | ok evs =>
      simp only [ht, invocations, List.filterMap_cons]
      have hm := invocations_map_task evs
      simp only [invocations] at hm
      simp [hm]
    | error e => simp [ht, invocations]
  · intro hlen
    unfold handle_request
    simp only [hres]
    rcases hfil : srv.tools.filter (fun tool => tool.name == n) with _ | ⟨a, _ | ⟨b, l⟩⟩
    · simp only [hfil]
      exact ⟨rfl, trivial⟩
    · rw [hfil] at hlen
      simp at hlen
    · simp only [hfil]
      exact ⟨rfl, trivial⟩

/-- Witness for C5: the example backend resolving to `ship_order` invokes the
unique matching tool exactly once with the full data-part list, while a
backend response resolving to "Unknown" (no registered match) yields the
cardinality failure and no invocation. -/
theorem dispatch_cardinality_witness :
    invocations (handle_request ex_server ex_client ["ship my order"]
        [signed_mandate_part] { task_id := "t", context_id := "c" } none) =
      [(ship_order_tool.name, [signed_mandate_part],
        { task_id := "t", context_id := "c" }, none)] ∧
    (invocations (handle_request ex_server unknown_client ["ship my order"]
        [signed_mandate_part] { task_id := "t", context_id := "c" } none) = [] ∧
      handle_request ex_server unknown_client ["ship my order"]
        [signed_mandate_part] { task_id := "t", context_id := "c" } none =
        [.task (.failed ("An error occurred: Expected 1 tool matching " ++ "Unknown"
          ++ ", got "
          ++ toString (ex_server.tools.filter (fun tool => tool.name == "Unknown")).length))]) :=
  ⟨(dispatch_cardinality ex_server ex_client ["ship my order"] [signed_mandate_part]
      { task_id := "t", context_id := "c" } none "ship_order" rfl).1 ship_order_tool rfl,
   (dispatch_cardinality ex_server unknown_client ["ship my order"] [signed_mandate_part]
      { task_id := "t", context_id := "c" } none "Unknown" rfl).2 (by decide)⟩

/-- A backend response carrying a function call whose name is not a
registered tool name (here: the empty string). -/
def rogue_response : GenResponse :=
  { candidates :=
      [{ content := some { parts := [{ function_call := some { name := "" } }] } }] }

/-- Counterexample to C1 as stated: on a concrete request whose caller
requested no extensions, the extension-negotiation error — raised by a
pipeline step after parsing — escapes `execute` as an exception to the
transport layer instead of being converted into a failed task. -/
theorem pipeline_error_escapes_counterexample :
    execute ex_server ok_watch_log ex_client no_ext_ctx "t" "c" =
      .error (.extensionNotActivated ("Payment extension not activated. " ++
        toString ([] : List String))) ∧
    (execute ex_server ok_watch_log ex_client no_ext_ctx "t" "c").isOk = false := by
  constructor <;> rfl

/-- C1 (amended):  Errors raised inside the dispatch step
(`_handle_request`: resolver errors, dispatch-lookup cardinality errors and
errors raised inside the invoked handler) are caught at that step's boundary
and converted into a failed task carrying a descriptive text message, so once
watch-log setup and the mandate gate succeed `execute` returns normally;
errors raised earlier in `execute` — extension-negotiation errors and mandate
schema/authorization validation errors — are not caught and escape the
pipeline to the transport layer. -/
theorem dispatch_errors_converted_validation_errors_escape
    (srv : BaseServerExecutor) (env : WatchLogEnv) (client : GenAIClient)
    (ctx : RequestContext) (f₁ f₂ : String) (tp : List String) (d : List DataPart)
    (u : TaskUpdater) (ct : Option Task) (e : String) (t : Tool) (n : String) :
    (log_a2a_message_parts env = .ok () →
      mandate_gate (handle_extensions srv ctx).call_context.activated_extensions
          (parse_request ctx).2 = .ok () →
      execute srv env client ctx f₁ f₂ =
        .ok (handle_request srv client (parse_request ctx).1 (parse_request ctx).2
          { task_id := (handle_extensions srv ctx).task_id.getD f₁
            context_id := (handle_extensions srv ctx).context_id.getD f₂ }
          (handle_extensions srv ctx).current_task)) ∧
    (determine_tool_to_use client (strip (tp.headD "")) = .error e →
      handle_request srv client tp d u ct =
        [.task (.failed ("An error occurred: " ++ e))]) ∧
    (determine_tool_to_use client (strip (tp.headD "")) = .ok n →
      srv.tools.filter (fun tool => tool.name == n) = [t] →
      t.handler d u ct = .error e →
      handle_request srv client tp d u ct =
        [.invoked t.name d u ct, .task (.failed ("An error occurred: " ++ e))]) ∧
    (∀ pe, log_a2a_message_parts env = .ok () →
      mandate_gate (handle_extensions srv ctx).call_context.activated_extensions
          (parse_request ctx).2 = .error pe →
      execute srv env client ctx f₁ f₂ = .error pe) := by
  refine ⟨?_, ?_, ?_, ?_⟩
  · intro hlog hgate
    simp only [execute, hlog, hgate]
  · intro hres
    unfold handle_request
    simp only [hres]
  · intro hres hfil hh
    unfold handle_request
    simp only [hres, hfil, hh]
  · intro pe hlog hgate
    simp only [execute, hlog, hgate]

/-- Witness for the amended C1 at concrete inputs: a clean request completes
normally; a raising backend and a raising handler are both converted into
failed tasks; a null-authorization mandate makes the gate's error escape
`execute`. -/
theorem dispatch_errors_converted_validation_errors_escape_witness :
    execute ex2_server ok_watch_log ex_client (ex_ctx signed_mandate_part) "t" "c" =
      .ok (handle_request ex2_server ex_client
        (parse_request (ex_ctx signed_mandate_part)).1
        (parse_request (ex_ctx signed_mandate_part)).2
        { task_id := (handle_extensions ex2_server (ex_ctx signed_mandate_part)).task_id.getD "t"
          context_id :=
            (handle_extensions ex2_server (ex_ctx signed_mandate_part)).context_id.getD "c" }
        (handle_extensions ex2_server (ex_ctx signed_mandate_part)).current_task) ∧
    handle_request ex2_server (fun _ => .error "boom") ["ship my order"] []
        { task_id := "t", context_id := "c" } none =
      [.task (.failed ("An error occurred: " ++ "boom"))] ∧
    handle_request ex2_server (fun _ => .ok fail_order_response) ["ship my order"] []
        { task_id := "t", context_id := "c" } none =
      [.invoked fail_order_tool.name [] { task_id := "t", context_id := "c" } none,
       .task (.failed ("An error occurred: " ++ "boom"))] ∧
    execute ex2_server ok_watch_log ex_client (ex_ctx null_mandate_part) "t" "c" =
      .error (.authorizationError "User authorization not found in PaymentMandate.") :=
  ⟨(dispatch_errors_converted_validation_errors_escape ex2_server ok_watch_log ex_client
      (ex_ctx signed_mandate_part) "t" "c" [] [] { task_id := "t", context_id := "c" }
      none "" ship_order_tool "").1 rfl rfl,
   (dispatch_errors_converted_validation_errors_escape ex2_server ok_watch_log
      (fun _ => .error "boom") (ex_ctx signed_mandate_part) "t" "c" ["ship my order"] []
      { task_id := "t", context_id := "c" } none "boom" fail_order_tool "fail_order").2.1 rfl,
   (dispatch_errors_converted_validation_errors_escape ex2_server ok_watch_log
      (fun _ => .ok fail_order_response) (ex_ctx signed_mandate_part) "t" "c"
      ["ship my order"] [] { task_id := "t", context_id := "c" } none "boom"
      fail_order_tool "fail_order").2.2.1 rfl rfl rfl,
   (dispatch_errors_converted_validation_errors_escape ex2_server ok_watch_log ex_client
      (ex_ctx null_mandate_part) "t" "c" [] [] { task_id := "t", context_id := "c" }
      none "" ship_order_tool "").2.2.2
      (.authorizationError "User authorization not found in PaymentMandate.") rfl rfl⟩

/-- Counterexample to C6 as stated: a backend response whose function
call carries the empty string as its name makes `determine_tool_to_use`
return the empty string — a value that is neither a registered capability
name nor the sentinel "Unknown". -/
theorem resolver_unchecked_name_counterexample :
    determine_tool_to_use (fun _ => .ok rogue_response) "" = .ok "" ∧
    ¬("" ∈ ex_server.tools.map Tool.name ∨ "" = "Unknown") := by
  constructor
  · rfl
  · decide

/-- C6 (amended):  Resolution reduces to the backend response's first
function-call name (or "Unknown" when there is none); the resolver performs
no membership check of its own, but whenever every function-call name of the
backend's response is drawn from the registered tool names — which is what
the forced function-calling configuration asks of the backend — the returned
name is a registered tool name or the sentinel "Unknown"; the empty prompt
is processed like any other and never yields an error of the resolver's
own making. -/
theorem resolver_returns_candidate_or_unknown
    (client : GenAIClient) (tools : List Tool) (prompt : String)
    (resp : GenResponse) (n : String)
    (hresp : client prompt = .ok resp)
    (hnames : ∀ c ∈ resp.candidates, ∀ content, c.content = some content →
      ∀ p ∈ content.parts, ∀ fc, p.function_call = some fc →
        fc.name ∈ tools.map Tool.name)
    (hret : determine_tool_to_use client prompt = .ok n) :
    n ∈ tools.map Tool.name ∨ n = "Unknown" := by
  unfold determine_tool_to_use at hret
  rw [hresp] at hret
  simp only [Except.map] at hret
  injection hret with hn
  subst hn
  unfold response_tool_name
  cases hc : resp.candidates with
  | nil => simp
  | cons c cs =>
    cases hcc : c.content with
    | none => simp [hcc]
    | some content =>
      cases hfs : content.parts.findSome? (fun part => part.function_call) with
      | none => simp [hcc, hfs]
      | some fc =>
        simp only [hcc, hfs]
        left
        obtain ⟨p, hp, hpf⟩ := List.exists_of_findSome?_eq_some hfs
        exact hnames c (by rw [hc]; exact List.mem_cons_self _ _) content hcc p hp fc hpf

/-- Witness for the amended C6: the example backend names only the
registered `ship_order` tool, so resolution stays in the candidate set. -/
theorem resolver_returns_candidate_or_unknown_witness :
    "ship_order" ∈ ex_server.tools.map Tool.name ∨ "ship_order" = "Unknown" :=
  resolver_returns_candidate_or_unknown ex_client ex_server.tools "ship my order"
    ship_order_response "ship_order" rfl
    (by
      intro c hc content hcc p hp fc hpf
      simp only [ship_order_response, List.mem_singleton] at hc
      subst hc
      simp only [Option.some.injEq] at hcc
      subst hcc
      simp only [List.mem_singleton] at hp
      subst hp
      simp only [Option.some.injEq] at hpf
      subst hpf
      decide)
    rfl

/-- Counterexample to C8 as stated: the very same request that completes
normally when the watch-log file handler exists is instead aborted by an
escaping logging exception when creating the `.logs/watch.log` file handler
fails — a logging failure blocks the request and changes its outcome. -/
theorem watch_log_failure_changes_outcome_counterexample :
    execute ex_server ok_watch_log ex_client (ex_ctx signed_mandate_part) "t" "c" =
      .ok [.invoked "ship_order" [signed_mandate_part]
            { task_id := "task-1", context_id := "ctx-1" } none,
           .task (.completed (some "shipped"))] ∧
    execute ex_server broken_watch_log ex_client (ex_ctx signed_mandate_part) "t" "c" =
      .error (.loggingError "No such file or directory: .logs/watch.log") := by
  constructor <;> rfl

/-- C8 (amended):  A failure while creating the watch-log file handler on
first use propagates out of `execute` as a logging error and aborts the
request; only when watch-log setup succeeds (handlers already attached, or
handler creation succeeds) is the outcome independent of the logging
environment. -/
theorem watch_log_failure_propagates
    (srv : BaseServerExecutor) (client : GenAIClient) (ctx : RequestContext)
    (f₁ f₂ : String) (env₁ env₂ : WatchLogEnv) (e : String) :
    (env₁.has_handlers = false → env₁.create_file_handler = .error e →
      execute srv env₁ client ctx f₁ f₂ = .error (.loggingError e)) ∧
    (log_a2a_message_parts env₁ = .ok () → log_a2a_message_parts env₂ = .ok () →
      execute srv env₁ client ctx f₁ f₂ = execute srv env₂ client ctx f₁ f₂) := by
  constructor
  · intro h1 h2
    have hlog : log_a2a_message_parts env₁ = .error e := by
      simp [log_a2a_message_parts, h1, h2]
    simp only [execute, hlog]
  · intro h1 h2
    simp only [execute, h1, h2]

/-- Witness for the amended C8: the broken environment aborts the concrete
request with the logging error, while two distinct healthy environments give
the request identical outcomes. -/
theorem watch_log_failure_propagates_witness :
    execute ex_server broken_watch_log ex_client (ex_ctx signed_mandate_part) "t" "c" =
      .error (.loggingError "No such file or directory: .logs/watch.log") ∧
    execute ex_server ok_watch_log ex_client (ex_ctx signed_mandate_part) "t" "c" =
      execute ex_server fresh_watch_log ex_client (ex_ctx signed_mandate_part) "t" "c" :=
  ⟨(watch_log_failure_propagates ex_server ex_client (ex_ctx signed_mandate_part)
      "t" "c" broken_watch_log ok_watch_log
      "No such file or directory: .logs/watch.log").1 rfl rfl,
   (watch_log_failure_propagates ex_server ex_client (ex_ctx signed_mandate_part)
      "t" "c" ok_watch_log fresh_watch_log
      "No such file or directory: .logs/watch.log").2 rfl rfl⟩

end AP2
